import Mathlib

/-!
Verification development for the recipe-workflow program (`logic2.py`).

The program is a sequential LangGraph workflow over a shared state record
(`RecipeState`).  Six nodes mutate the record; a single router
(`route_after_generation`) branches after recipe generation.  External
collaborators (the OpenAI completion service and the console) are modelled
as an explicit environment `Env`; every node returns the merged state
together with the list of prompts it sent to the completion service, so
that "the completion service is never invoked" is expressible as an empty
call list.

Python `None` and the empty string are conflated by `optStr` where the
source only ever tests truthiness (both are falsy and short-circuit the
same way at every use site in `logic2.py`).
-/

namespace RecipeApp

/-- Substring occurrence at the head of a character list. -/
def headMatches : List Char → List Char → Bool
  | [], _ => true
  | _ :: _, [] => false
  | p :: ps, c :: cs => p == c && headMatches ps cs

/-- Substring occurrence anywhere in a character list
(Python `pat in s` for strings). -/
def containsSeq (pat : List Char) : List Char → Bool
  | [] => headMatches pat []
  | c :: cs => headMatches pat (c :: cs) || containsSeq pat cs

/-- Python `pat in s` on strings. -/
def strContains (s pat : String) : Bool := containsSeq pat.data s.data

/-- The reserved textual error marker test: Python `"Error" in s`. -/
def hasError (s : String) : Bool := strContains s "Error"

/-- Characters removed by Python `str.strip()` (ASCII whitespace). -/
def isPyWs (c : Char) : Bool :=
  c == ' ' || c == '\t' || c == '\n' || c == '\r' ||
  c == Char.ofNat 11 || c == Char.ofNat 12

/-- Python `str.strip()`. -/
def pyStrip (s : String) : String :=
  String.mk (((s.data.dropWhile isPyWs).reverse.dropWhile isPyWs).reverse)

/-- Python `str.lower()` (ASCII range, which covers every use here). -/
def pyLower (s : String) : String := String.mk (s.data.map Char.toLower)

/-- Auxiliary splitter for Python `s.split(',')`. -/
def splitCommaAux : List Char → List Char → List (List Char)
  | [], acc => [acc.reverse]
  | c :: cs, acc =>
    if c == ',' then acc.reverse :: splitCommaAux cs []
    else splitCommaAux cs (c :: acc)

/-- Python `[item.strip() for item in s.split(',') if item.strip()]`. -/
def parseCommaList (s : String) : List String :=
  ((splitCommaAux s.data []).map (fun cs => pyStrip (String.mk cs))).filter
    (fun t => !(t == ""))

/-- Python truthy-or on strings: `a or b`. -/
def pyOrStr (a b : String) : String := if a = "" then b else a

/-- Python `dict.get(key, "")`-style read of an optional string field,
conflating `None` with the empty string (both falsy, and every use site in
the source short-circuits before distinguishing them). -/
def optStr : Option String → String
  | some t => t
  | none => ""

/-! ### JSON values and a model of Python `json.loads` -/

/-- JSON values as produced by Python `json.loads` (numbers kept as their
lexemes; `NaN`/`Infinity` are accepted by `json.loads` by default). -/
inductive JValue where
  | jnull
  | jbool (b : Bool)
  | jnum (lexeme : String)
  | jstr (s : String)
  | jarr (elems : List JValue)
  | jobj (entries : List (String × JValue))

/-- Brace characters, named to keep them out of string/char literals. -/
def lbraceC : Char := Char.ofNat 123

def rbraceC : Char := Char.ofNat 125

def quoteC : Char := '\"'

def backslashC : Char := '\\'

/-- JSON whitespace skipped by the parser (` \t\n\r`). -/
def skipWs : List Char → List Char
  | [] => []
  | c :: cs => if c == ' ' || c == '\t' || c == '\n' || c == '\r' then skipWs cs else c :: cs

def hexDigitVal (c : Char) : Option Nat :=
  if c.toNat ≥ 48 && c.toNat ≤ 57 then some (c.toNat - 48)
  else if c.toNat ≥ 97 && c.toNat ≤ 102 then some (c.toNat - 87)
  else if c.toNat ≥ 65 && c.toNat ≤ 70 then some (c.toNat - 55)
  else none

/-- JSON string escape map (`\" \\ \/ \b \f \n \r \t`). -/
def escMap (e : Char) : Option Char :=
  if e == quoteC then some quoteC
  else if e == backslashC then some backslashC
  else if e == '/' then some '/'
  else if e == 'b' then some (Char.ofNat 8)
  else if e == 'f' then some (Char.ofNat 12)
  else if e == 'n' then some '\n'
  else if e == 'r' then some '\r'
  else if e == 't' then some '\t'
  else none

/-- Body of a JSON string after the opening quote: returns the decoded
characters and the remainder after the closing quote.  Control characters
are rejected (strict mode, the `json.loads` default). -/
def parseStrBody : List Char → Option (List Char × List Char)
  | [] => none
  | c :: cs =>
    if c == quoteC then some ([], cs)
    else if c == backslashC then
      match cs with
      | [] => none
      | e :: cs2 =>
        if e == 'u' then
          match cs2 with
          | h1 :: h2 :: h3 :: h4 :: cs3 =>
            match hexDigitVal h1, hexDigitVal h2, hexDigitVal h3, hexDigitVal h4 with
            | some a, some b, some c4, some d =>
              match parseStrBody cs3 with
              | some (body, rest) =>
                some (Char.ofNat (((a * 16 + b) * 16 + c4) * 16 + d) :: body, rest)
              | none => none
            | _, _, _, _ => none
          | _ => none
        else
          match escMap e with
          | some ch =>
            match parseStrBody cs2 with
            | some (body, rest) => some (ch :: body, rest)
            | none => none
          | none => none
    else if c.toNat < 32 then none
    else
      match parseStrBody cs with
      | some (body, rest) => some (c :: body, rest)
      | none => none

def isDigitC (c : Char) : Bool := c.toNat ≥ 48 && c.toNat ≤ 57

def takeDigits : List Char → List Char × List Char
  | [] => ([], [])
  | c :: cs =>
    if isDigitC c then
      let r := takeDigits cs
      (c :: r.1, r.2)
    else ([], c :: cs)

/-- JSON integer part: `0` or a nonzero digit followed by digits. -/
def parseIntPart : List Char → Option (List Char × List Char)
  | [] => none
  | c :: cs =>
    if c == '0' then some ([c], cs)
    else if isDigitC c then
      let r := takeDigits cs
      some (c :: r.1, r.2)
    else none

/-- Optional JSON fraction part: `.` followed by at least one digit. -/
def parseFracPart (cs : List Char) : Option (List Char × List Char) :=
  match cs with
  | c :: rest =>
    if c == '.' then
      match takeDigits rest with
      | ([], _) => none
      | (ds, r) => some (c :: ds, r)
    else some ([], cs)
  | [] => some ([], [])

/-- Optional JSON exponent part. -/
def parseExpPart (cs : List Char) : Option (List Char × List Char) :=
  match cs with
  | e :: rest =>
    if e == 'e' || e == 'E' then
      match rest with
      | s :: rest2 =>
        if s == '+' || s == '-' then
          match takeDigits rest2 with
          | ([], _) => none
          | (ds, r) => some (e :: s :: ds, r)
        else
          match takeDigits rest with
          | ([], _) => none
          | (ds, r) => some (e :: ds, r)
      | [] => none
    else some ([], cs)
  | [] => some ([], [])

/-- JSON number token (lexeme and remainder). -/
def parseNumberTok (cs : List Char) : Option (List Char × List Char) :=
  let p := match cs with
    | c :: rest => if c == '-' then (([c] : List Char), rest) else (([] : List Char), cs)
    | [] => (([] : List Char), ([] : List Char))
  match parseIntPart p.2 with
  | none => none
  | some (ip, cs2) =>
    match parseFracPart cs2 with
    | none => none
    | some (fp, cs3) =>
      match parseExpPart cs3 with
      | none => none
      | some (ep, cs4) => some (p.1 ++ ip ++ fp ++ ep, cs4)

/-- Python dict insertion: replace in place on duplicate key, else append. -/
def insertKV : List (String × JValue) → String → JValue → List (String × JValue)
  | [], k, v => [(k, v)]
  | (k0, v0) :: rest, k, v =>
    if k0 = k then (k0, v) :: rest else (k0, v0) :: insertKV rest k v

mutual

/-- Fueled recursive-descent JSON value parser. -/
def parseVal : Nat → List Char → Option (JValue × List Char)
  | 0, _ => none
  | fuel + 1, cs =>
    match skipWs cs with
    | [] => none
    | c :: rest =>
      if c == quoteC then
        match parseStrBody rest with
        | some (body, r) => some (.jstr (String.mk body), r)
        | none => none
      else if c == lbraceC then parseObjBody fuel rest
      else if c == '[' then parseArrBody fuel rest
      else
        match c :: rest with
        | 'n' :: 'u' :: 'l' :: 'l' :: r => some (.jnull, r)
        | 't' :: 'r' :: 'u' :: 'e' :: r => some (.jbool true, r)
        | 'f' :: 'a' :: 'l' :: 's' :: 'e' :: r => some (.jbool false, r)
        | 'N' :: 'a' :: 'N' :: r => some (.jnum "NaN", r)
        | 'I' :: 'n' :: 'f' :: 'i' :: 'n' :: 'i' :: 't' :: 'y' :: r =>
          some (.jnum "Infinity", r)
        | '-' :: 'I' :: 'n' :: 'f' :: 'i' :: 'n' :: 'i' :: 't' :: 'y' :: r =>
          some (.jnum "-Infinity", r)
        | cs2 =>
          match parseNumberTok cs2 with
          | some (tok, r) => some (.jnum (String.mk tok), r)
          | none => none

/-- Object body after the opening brace. -/
def parseObjBody : Nat → List Char → Option (JValue × List Char)
  | 0, _ => none
  | fuel + 1, cs =>
    match skipWs cs with
    | [] => none
    | c :: rest =>
      if c == rbraceC then some (.jobj [], rest)
      else parseObjItems fuel (c :: rest) []

/-- One or more `"key": value` members separated by commas. -/
def parseObjItems : Nat → List Char → List (String × JValue) → Option (JValue × List Char)
  | 0, _, _ => none
  | fuel + 1, cs, acc =>
    match skipWs cs with
    | [] => none
    | c :: rest =>
      if c == quoteC then
        match parseStrBody rest with
        | some (kbody, r1) =>
          match skipWs r1 with
          | c2 :: r2 =>
            if c2 == ':' then
              match parseVal fuel r2 with
              | some (v, r3) =>
                match skipWs r3 with
                | c3 :: r4 =>
                  if c3 == ',' then parseObjItems fuel r4 (insertKV acc (String.mk kbody) v)
                  else if c3 == rbraceC then
                    some (.jobj (insertKV acc (String.mk kbody) v), r4)
                  else none
                | [] => none
              | none => none
            else none
          | [] => none
        | none => none
      else none

/-- Array body after the opening bracket. -/
def parseArrBody : Nat → List Char → Option (JValue × List Char)
  | 0, _ => none
  | fuel + 1, cs =>
    match skipWs cs with
    | [] => none
    | c :: rest =>
      if c == ']' then some (.jarr [], rest)
      else parseArrItems fuel (c :: rest) []

/-- One or more array elements separated by commas. -/
def parseArrItems : Nat → List Char → List JValue → Option (JValue × List Char)
  | 0, _, _ => none
  | fuel + 1, cs, acc =>
    match parseVal fuel cs with
    | some (v, r) =>
      match skipWs r with
      | c :: r2 =>
        if c == ',' then parseArrItems fuel r2 (acc ++ [v])
        else if c == ']' then some (.jarr (acc ++ [v]), r2)
        else none
      | [] => none
    | none => none

end

/-- Model of Python `json.loads`: parse one value, then require only
whitespace up to the end of the input. -/
def jsonLoads (s : String) : Option JValue :=
  match parseVal (2 * s.data.length + 4) s.data with
  | some (v, rest) => if skipWs rest = [] then some v else none
  | none => none

example : jsonLoads "1" = some (.jnum "1") := rfl

example : jsonLoads " null " = some .jnull := rfl

example : jsonLoads "\x7b\"a\": \"b\"\x7d" = some (.jobj [("a", .jstr "b")]) := rfl

example : jsonLoads "x" = none := rfl

/-- The span matched by `re.search(r'\x7b.*\x7d', content, re.DOTALL)`: from
the first opening brace to the last closing brace, greedy, provided the
last closing brace comes after the first opening brace. -/
def braceSpan (cs : List Char) : Option (List Char) :=
  let fromFirst := cs.dropWhile (fun c => !(c == lbraceC))
  let t := (fromFirst.reverse.dropWhile (fun c => !(c == rbraceC))).reverse
  if 2 ≤ t.length then some t else none

/-- Python runtime type name of a parsed JSON value, as it appears in the
`AttributeError` raised by calling `.items()` on a non-dict. -/
def pyTypeName : JValue → String
  | .jnull => "NoneType"
  | .jbool _ => "bool"
  | .jnum lx =>
    if containsSeq ['.'] lx.data || containsSeq ['e'] lx.data ||
        containsSeq ['E'] lx.data || lx = "NaN" || lx = "Infinity" || lx = "-Infinity"
    then "float" else "int"
  | .jstr _ => "str"
  | .jarr _ => "list"
  | .jobj _ => "dict"

/-- Result of `substitutions.items()` iteration in the source: a parsed dict
yields its entries; any other parsed value raises `AttributeError` in the
printing loop, which the outer `except` converts into an error mapping. -/
def itemsOrErr : JValue → List (String × JValue)
  | .jobj entries => entries
  | v => [("error", .jstr ("Failed to extract substitutions: \x27" ++ pyTypeName v
      ++ "\x27 object has no attribute \x27items\x27"))]

/-- The substitution-extraction policy of `ingredient_substitution_node`
(lines 173-189): strip the response, attempt a direct `json.loads`, on
failure search for a greedy brace span and parse that, and fall back to an
error mapping when both fail. -/
def extractSubs (raw : String) : List (String × JValue) :=
  let content := pyStrip raw
  match jsonLoads content with
  | some v => itemsOrErr v
  | none =>
    match braceSpan content.data with
    | some span =>
      match jsonLoads (String.mk span) with
      | some v => itemsOrErr v
      | none => [("error", .jstr "Could not parse JSON from response")]
    | none => [("error", .jstr "No JSON found in response")]

/-! ### The shared state record and the environment -/

/-- The `RecipeState` TypedDict (lines 19-33). -/
structure RecipeState where
  ingredients : List String
  dietary_restrictions : List String
  preferences : List String
  generated_recipe : Option String
  adjusted_recipe : Option String
  substitutions : Option (List (String × JValue))
  meal_plan : Option (List (String × List String))
  shopping_list : Option (List String)
  feedback : Option String
  favorites : Option (List String)
  user_notes : Option String

/-- External collaborators: the completion service (prompt to response or
caught exception text) and the interaction surface (input label to the line
the user typed). -/
structure Env where
  llm : String → Except String String
  inputLine : String → String

/-! Input labels, exactly as passed to `input(...)` in the source. -/

def ingredientsLabel : String := "Enter ingredients separated by commas: "

def restrictionsLabel : String := "Enter diet restrictions separated by commas (or leave blank): "

def preferencesLabel : String := "Enter taste or cuisine preferences separated by commas: "

def feedbackLabel : String := "Did you face any difficulty making the recipe? (Describe or leave blank): "

def saveLabel : String := "Do you want to save this recipe to favorites? (yes/no): "

def notesLabel : String := "Any personal notes you\x27d like to save with it? (optional): "

/-! ### The six nodes -/

/-- `user_input_node` (lines 36-54). -/
def user_input_node (env : Env) (s : RecipeState) : RecipeState × List String :=
  let ingredients := parseCommaList (env.inputLine ingredientsLabel)
  let dietary_restrictions := parseCommaList (env.inputLine restrictionsLabel)
  let preferences := parseCommaList (env.inputLine preferencesLabel)
  ({ s with ingredients := ingredients, dietary_restrictions := dietary_restrictions,
            preferences := preferences }, [])

/-- The generation prompt f-string (lines 67-72). -/
def recipePrompt (ingredients dietary_restrictions preferences : List String) : String :=
  "You are a helpful chef. Create a recipe with the following ingredients: " ++
  String.intercalate ", " ingredients ++
  ".\n    Make sure the recipe follows these dietary restrictions: " ++
  (if dietary_restrictions ≠ [] then String.intercalate ", " dietary_restrictions else "none") ++
  " and \n    try to match these taste preferences: " ++
  (if preferences ≠ [] then String.intercalate ", " preferences else "none") ++
  "\n    \n    Provide the recipe name, ingredients list and step-by-step instructions.\n    "

/-- `recipe_generation_node` (lines 57-98).  The second component lists the
prompts sent to the completion service. -/
def recipe_generation_node (env : Env) (s : RecipeState) : RecipeState × List String :=
  if s.ingredients = [] then
    ({ s with generated_recipe := some "No ingredients provided. Cannot generate recipe." }, [])
  else
    let prompt := recipePrompt s.ingredients s.dietary_restrictions s.preferences
    match env.llm prompt with
    | .ok content => ({ s with generated_recipe := some content }, [prompt])
    | .error e => ({ s with generated_recipe := some ("Error generating recipe: " ++ e) }, [prompt])

/-- The adjustment prompt f-string (lines 110-117). -/
def adjustPrompt (dietary_restrictions : List String) (original_recipe : String) : String :=
  "The following recipe may not fully comply with these dietary restrictions: " ++
  String.intercalate ", " dietary_restrictions ++
  ".\n\n    Recipe:\n    " ++ original_recipe ++
  "\n\n    Please adjust the recipe to strictly follow these dietary restrictions and make minimal necessary substitutions.\n    Output the adjusted recipe in the same format.\n    "

/-- `diet_adjustment_node` (lines 101-139). -/
def diet_adjustment_node (env : Env) (s : RecipeState) : RecipeState × List String :=
  let original_recipe := optStr s.generated_recipe
  if original_recipe = "" ∨ hasError original_recipe = true ∨ s.dietary_restrictions = [] then
    ({ s with adjusted_recipe := some original_recipe }, [])
  else
    let prompt := adjustPrompt s.dietary_restrictions original_recipe
    match env.llm prompt with
    | .ok content => ({ s with adjusted_recipe := some content }, [prompt])
    | .error _ => ({ s with adjusted_recipe := some original_recipe }, [prompt])

/-- The substitution prompt f-string (lines 152-162); the doubled braces of
the f-string render as literal braces in the prompt. -/
def substPrompt (dietary_restrictions preferences : List String) (recipe_text : String) : String :=
  "\n    Analyze the following recipe and suggest ingredient substitutions that:\n    - Align with these dietary restrictions: " ++
  pyOrStr (String.intercalate ", " dietary_restrictions) "none" ++
  "\n    - Match these preferences: " ++
  pyOrStr (String.intercalate ", " preferences) "none" ++
  "\n\n    Recipe:\n    " ++ recipe_text ++
  "\n\n    Return ONLY a JSON dictionary of substitutions like: \x7b\"ingredient\": \"substitute\"\x7d\n    No additional text before or after the JSON.\n    "

/-- The source text chosen by `ingredient_substitution_node` (line 144):
`state.get("adjusted_recipe") or state.get("generated_recipe", "")`. -/
def sourceText (s : RecipeState) : String :=
  pyOrStr (optStr s.adjusted_recipe) (optStr s.generated_recipe)

/-- `ingredient_substitution_node` (lines 142-201). -/
def ingredient_substitution_node (env : Env) (s : RecipeState) : RecipeState × List String :=
  let recipe_text := sourceText s
  if recipe_text = "" ∨ hasError recipe_text = true then
    ({ s with substitutions := some [] }, [])
  else
    let prompt := substPrompt s.dietary_restrictions s.preferences recipe_text
    match env.llm prompt with
    | .ok content => ({ s with substitutions := some (extractSubs content) }, [prompt])
    | .error e =>
      ({ s with substitutions := some [("error", .jstr ("Failed to extract substitutions: " ++ e))] },
       [prompt])

/-- `feedback_node` (lines 204-208). -/
def feedback_node (env : Env) (s : RecipeState) : RecipeState × List String :=
  ({ s with feedback := some (pyStrip (env.inputLine feedbackLabel)) }, [])

/-- `storage_node` (lines 211-230). -/
def storage_node (env : Env) (s : RecipeState) : RecipeState × List String :=
  let recipe := pyOrStr (optStr s.adjusted_recipe) (optStr s.generated_recipe)
  if recipe = "" ∨ hasError recipe = true then
    ({ s with favorites := s.favorites, user_notes := some "" }, [])
  else
    let save := pyLower (pyStrip (env.inputLine saveLabel))
    let notes := pyStrip (env.inputLine notesLabel)
    let favorites := s.favorites.getD []
    ({ s with favorites := some (if save = "yes" then favorites ++ [recipe] else favorites),
              user_notes := some (if notes = "" then "" else notes) }, [])

/-! ### Router, graph declaration and executor -/

/-- `route_after_generation` (lines 233-244): returns the NAME of the next
node, exactly as the Python function returns a string. -/
def route_after_generation (s : RecipeState) : String :=
  let recipe := optStr s.generated_recipe
  if hasError recipe = true then "FeedbackNode"
  else if s.dietary_restrictions ≠ [] then "DietAdjustmentNode"
  else "IngredientSubstitutionNode"

/-- The six registered nodes (lines 253-258). -/
inductive NodeName where
  | UserInputNode
  | RecipeGenerationNode
  | DietAdjustmentNode
  | IngredientSubstitutionNode
  | FeedbackNode
  | StorageNode
deriving DecidableEq, Fintype

/-- The conditional-edge branch table rooted at `RecipeGenerationNode`
(lines 264-272): maps the router's returned name to a node. -/
def condMap (target : String) : Option NodeName :=
  if target = "DietAdjustmentNode" then some .DietAdjustmentNode
  else if target = "IngredientSubstitutionNode" then some .IngredientSubstitutionNode
  else if target = "FeedbackNode" then some .FeedbackNode
  else none

/-- Dispatch from node name to node function. -/
def runNode (env : Env) : NodeName → RecipeState → RecipeState × List String
  | .UserInputNode, s => user_input_node env s
  | .RecipeGenerationNode, s => recipe_generation_node env s
  | .DietAdjustmentNode, s => diet_adjustment_node env s
  | .IngredientSubstitutionNode, s => ingredient_substitution_node env s
  | .FeedbackNode, s => feedback_node env s
  | .StorageNode, s => storage_node env s

/-- Successor resolution per the edge declarations (lines 264-279),
evaluated on the post-step state: `none` means the router returned an
undeclared name (a configuration error), `some none` means the terminal
marker `END`, `some (some n)` means node `n` runs next. -/
def nextStep (s : RecipeState) : NodeName → Option (Option NodeName)
  | .UserInputNode => some (some .RecipeGenerationNode)
  | .RecipeGenerationNode => (condMap (route_after_generation s)).map some
  | .DietAdjustmentNode => some (some .IngredientSubstitutionNode)
  | .IngredientSubstitutionNode => some (some .FeedbackNode)
  | .FeedbackNode => some (some .StorageNode)
  | .StorageNode => some none

/-- Modelled from the spec: the Executor traversal loop of spec section 4.4
(run the current step, merge its update, resolve the successor, repeat
until the terminal marker).  The compiled-graph `invoke` that implements
this loop is LangGraph library code not present in the repository; only the
graph declaration in `main` (lines 248-304) is.  The fuel argument bounds
the number of iterations; the result is the final state together with the
list of executed nodes, and `none` when fuel runs out or the router output
is undeclared. -/
def runFrom (env : Env) : Nat → NodeName → RecipeState → Option (RecipeState × List NodeName)
  | 0, _, _ => none
  | fuel + 1, n, s =>
    let step := runNode env n s
    match nextStep step.1 n with
    | none => none
    | some none => some (step.1, [n])
    | some (some n2) =>
      match runFrom env fuel n2 step.1 with
      | some (fin, tr) => some (fin, n :: tr)
      | none => none

/-- The initial state built in `main` (lines 285-297). -/
def initialState : RecipeState :=
  { ingredients := [], dietary_restrictions := [], preferences := [],
    generated_recipe := none, adjusted_recipe := none, substitutions := none,
    meal_plan := none, shopping_list := none, feedback := none,
    favorites := some [], user_notes := none }

/-- Number of registered steps. -/
def stepCount : Nat := 6

/-- One full run of the application: the executor started at the entry
point on the initial state, with fuel equal to the number of steps. -/
def runApp (env : Env) : Option (RecipeState × List NodeName) :=
  runFrom env stepCount .UserInputNode initialState

/-- The statically declared successor sets of the graph (conditional-edge
destinations included). -/
def declaredSuccessors : NodeName → List NodeName
  | .UserInputNode => [.RecipeGenerationNode]
  | .RecipeGenerationNode => [.DietAdjustmentNode, .IngredientSubstitutionNode, .FeedbackNode]
  | .DietAdjustmentNode => [.IngredientSubstitutionNode]
  | .IngredientSubstitutionNode => [.FeedbackNode]
  | .FeedbackNode => [.StorageNode]
  | .StorageNode => []

/-- A rank function witnessing acyclicity of the declared graph. -/
def nodeRank : NodeName → Nat
  | .UserInputNode => 5
  | .RecipeGenerationNode => 4
  | .DietAdjustmentNode => 3
  | .IngredientSubstitutionNode => 2
  | .FeedbackNode => 1
  | .StorageNode => 0

/-- The source-selection rule for SuggestSubstitutions as the spec words
it: the adjusted recipe when that field is present and non-empty, else the
generated recipe. -/
def specChosenSource (s : RecipeState) : String :=
  match s.adjusted_recipe with
  | some a => if a ≠ "" then a else optStr s.generated_recipe
  | none => optStr s.generated_recipe

/-- The state immediately after GenerateRecipe in a run of `main`. -/
def genStateOf (env : Env) : RecipeState :=
  (recipe_generation_node env ((user_input_node env initialState).1)).1

/-! ### Executor unfolding and path lemmas -/

lemma runFrom_succ (env : Env) (fuel : Nat) (n : NodeName) (s : RecipeState) :
    runFrom env (fuel + 1) n s =
      (match nextStep (runNode env n s).1 n with
       | none => none
       | some none => some ((runNode env n s).1, [n])
       | some (some n2) =>
          match runFrom env fuel n2 (runNode env n s).1 with
          | some (fin, tr) => some (fin, n :: tr)
          | none => none) := rfl

/-- From the diet-adjustment node on, the remaining path is unconditional. -/
lemma runFrom_diet4 (env : Env) (s : RecipeState) :
    runFrom env 4 .DietAdjustmentNode s =
      some ((storage_node env
              ((feedback_node env
                ((ingredient_substitution_node env
                  ((diet_adjustment_node env s).1)).1)).1)).1,
        [.DietAdjustmentNode, .IngredientSubstitutionNode, .FeedbackNode, .StorageNode]) := rfl

/-- From the substitution node on, the remaining path is unconditional. -/
lemma runFrom_subst4 (env : Env) (s : RecipeState) :
    runFrom env 4 .IngredientSubstitutionNode s =
      some ((storage_node env
              ((feedback_node env
                ((ingredient_substitution_node env s).1)).1)).1,
        [.IngredientSubstitutionNode, .FeedbackNode, .StorageNode]) := rfl

/-- From the feedback node on, the remaining path is unconditional. -/
lemma runFrom_feedback4 (env : Env) (s : RecipeState) :
    runFrom env 4 .FeedbackNode s =
      some ((storage_node env ((feedback_node env s).1)).1,
        [.FeedbackNode, .StorageNode]) := rfl

/-- A full run decomposes into the two unconditional entry steps followed by
whatever the router chose. -/
lemma runApp_of_next (env : Env) (n2 : NodeName) (fin : RecipeState) (tr : List NodeName)
    (h : nextStep (genStateOf env) .RecipeGenerationNode = some (some n2))
    (h4 : runFrom env 4 n2 (genStateOf env) = some (fin, tr)) :
    runApp env = some (fin, .UserInputNode :: .RecipeGenerationNode :: tr) := by
  have e4 : (runNode env .RecipeGenerationNode ((runNode env .UserInputNode initialState)).1).1
      = genStateOf env := rfl
  have key : runFrom env (4 + 1) .RecipeGenerationNode ((runNode env .UserInputNode initialState)).1
      = (match runFrom env 4 n2 (genStateOf env) with
         | some (fin, tr) => some (fin, NodeName.RecipeGenerationNode :: tr)
         | none => none) := by
    rw [runFrom_succ, e4, h]
  have e0 : runApp env =
      (match runFrom env (4 + 1) .RecipeGenerationNode ((runNode env .UserInputNode initialState)).1 with
       | some (fin, tr) => some (fin, NodeName.UserInputNode :: tr)
       | none => none) := rfl
  rw [e0, key, h4]

/-! ### Field-preservation lemmas for the individual nodes -/

lemma diet_keeps_generated (env : Env) (s : RecipeState) :
    ((diet_adjustment_node env s).1).generated_recipe = s.generated_recipe := by
  simp only [diet_adjustment_node]
  split
  · rfl
  · cases env.llm (adjustPrompt s.dietary_restrictions (optStr s.generated_recipe)) <;> rfl

lemma diet_keeps_favorites (env : Env) (s : RecipeState) :
    ((diet_adjustment_node env s).1).favorites = s.favorites := by
  simp only [diet_adjustment_node]
  split
  · rfl
  · cases env.llm (adjustPrompt s.dietary_restrictions (optStr s.generated_recipe)) <;> rfl

lemma subst_keeps_generated (env : Env) (s : RecipeState) :
    ((ingredient_substitution_node env s).1).generated_recipe = s.generated_recipe := by
  simp only [ingredient_substitution_node]
  split
  · rfl
  · cases env.llm (substPrompt s.dietary_restrictions s.preferences (sourceText s)) <;> rfl

lemma subst_keeps_favorites (env : Env) (s : RecipeState) :
    ((ingredient_substitution_node env s).1).favorites = s.favorites := by
  simp only [ingredient_substitution_node]
  split
  · rfl
  · cases env.llm (substPrompt s.dietary_restrictions s.preferences (sourceText s)) <;> rfl

lemma feedback_keeps_generated (env : Env) (s : RecipeState) :
    ((feedback_node env s).1).generated_recipe = s.generated_recipe := rfl

lemma feedback_keeps_favorites (env : Env) (s : RecipeState) :
    ((feedback_node env s).1).favorites = s.favorites := rfl

lemma feedback_keeps_adjusted (env : Env) (s : RecipeState) :
    ((feedback_node env s).1).adjusted_recipe = s.adjusted_recipe := rfl

lemma feedback_keeps_substitutions (env : Env) (s : RecipeState) :
    ((feedback_node env s).1).substitutions = s.substitutions := rfl

lemma storage_keeps_generated (env : Env) (s : RecipeState) :
    ((storage_node env s).1).generated_recipe = s.generated_recipe := by
  simp only [storage_node]
  split <;> rfl

lemma storage_keeps_adjusted (env : Env) (s : RecipeState) :
    ((storage_node env s).1).adjusted_recipe = s.adjusted_recipe := by
  simp only [storage_node]
  split <;> rfl

lemma storage_keeps_substitutions (env : Env) (s : RecipeState) :
    ((storage_node env s).1).substitutions = s.substitutions := by
  simp only [storage_node]
  split <;> rfl

/-- The storage node leaves an empty favorites list empty whenever the save
choice is not the explicit affirmative. -/
lemma storage_empty_favorites (env : Env) (s : RecipeState)
    (hfav : s.favorites = some [])
    (hsave : pyLower (pyStrip (env.inputLine saveLabel)) ≠ "yes") :
    ((storage_node env s).1).favorites = some [] := by
  simp only [storage_node]
  split
  · exact hfav
  · rw [hfav]
    simp [hsave]

/-- The router never leaves its declared destination set: the branch table
lookup always succeeds. -/
lemma route_in_table (s : RecipeState) :
    ∃ n2, condMap (route_after_generation s) = some n2 := by
  unfold route_after_generation
  by_cases he : hasError (optStr s.generated_recipe) = true
  · exact ⟨.FeedbackNode, by rw [if_pos he]; rfl⟩
  · by_cases hd : s.dietary_restrictions ≠ []
    · exact ⟨.DietAdjustmentNode, by rw [if_neg he, if_pos hd]; rfl⟩
    · exact ⟨.IngredientSubstitutionNode, by rw [if_neg he, if_neg hd]; rfl⟩

lemma condMap_mem (r : String) (n : NodeName) (h : condMap r = some n) :
    n = .DietAdjustmentNode ∨ n = .IngredientSubstitutionNode ∨ n = .FeedbackNode := by
  unfold condMap at h
  split at h
  · exact Or.inl (Option.some.inj h).symm
  · split at h
    · exact Or.inr (Or.inl (Option.some.inj h).symm)
    · split at h
      · exact Or.inr (Or.inr (Option.some.inj h).symm)
      · cases h

lemma generation_keeps_adjusted (env : Env) (s : RecipeState) :
    ((recipe_generation_node env s).1).adjusted_recipe = s.adjusted_recipe := by
  simp only [recipe_generation_node]
  split
  · rfl
  · cases env.llm (recipePrompt s.ingredients s.dietary_restrictions s.preferences) <;> rfl

lemma generation_keeps_substitutions (env : Env) (s : RecipeState) :
    ((recipe_generation_node env s).1).substitutions = s.substitutions := by
  simp only [recipe_generation_node]
  split
  · rfl
  · cases env.llm (recipePrompt s.ingredients s.dietary_restrictions s.preferences) <;> rfl

/-! ### Concrete fixtures used by witnesses and counterexamples -/

/-- Environment in which the user enters nothing anywhere and the
completion service answers a non-JSON string. -/
def envAllBlank : Env where
  llm := fun _ => .ok "some recipe text"
  inputLine := fun _ => ""

/-- Environment in which the user enters nothing except an affirmative
answer to the save-to-favorites question. -/
def envEmptySaveYes : Env where
  llm := fun _ => .ok "some recipe text"
  inputLine := fun label => if label = saveLabel then "yes" else ""

/-- Environment in which every completion call fails and the user types
`rice` at every prompt. -/
def envFailing : Env where
  llm := fun _ => .error "boom"
  inputLine := fun _ => "rice"

/-- Environment answering every interaction with `yes`; the completion
service succeeds. -/
def envAllYes : Env where
  llm := fun _ => .ok "some recipe text"
  inputLine := fun _ => "yes"

/-- State holding an error-marked generation result. -/
def stErrorGen : RecipeState :=
  { initialState with generated_recipe := some "Error generating recipe: boom" }

/-- State holding a valid generation result and one dietary restriction. -/
def stPlainGen : RecipeState :=
  { initialState with generated_recipe := some "Pasta. Boil water.",
                      dietary_restrictions := ["vegan"] }

/-- State holding the empty-ingredients diagnostic as its generation result. -/
def stDiagGen : RecipeState :=
  { initialState with
    generated_recipe := some "No ingredients provided. Cannot generate recipe." }

/-! ### Claim theorems -/

/-- Claim C1: for every state evaluated by the router after GenerateRecipe,
an error-marked `generated_recipe` routes to FeedbackNode; otherwise
non-empty `dietary_restrictions` routes to DietAdjustmentNode, else to
IngredientSubstitutionNode; and the returned name always lies in the closed
declared destination set (the branch-table lookup succeeds). -/
theorem route_after_generation_cases (s : RecipeState) (r : String)
    (h : s.generated_recipe = some r) :
    (hasError r = true → route_after_generation s = "FeedbackNode") ∧
    (hasError r = false → s.dietary_restrictions ≠ [] →
      route_after_generation s = "DietAdjustmentNode") ∧
    (hasError r = false → s.dietary_restrictions = [] →
      route_after_generation s = "IngredientSubstitutionNode") ∧
    (condMap (route_after_generation s)).isSome = true ∧
    route_after_generation s ∈
      (["DietAdjustmentNode", "IngredientSubstitutionNode", "FeedbackNode"] : List String) := by
  have hopt : optStr s.generated_recipe = r := by
    rw [h]
    rfl
  by_cases he : hasError r = true
  · have hr : route_after_generation s = "FeedbackNode" := by
      simp only [route_after_generation, hopt]
      rw [if_pos he]
    rw [hr]
    refine ⟨fun _ => rfl, ?_, ?_, rfl, by decide⟩
    · intro hf
      rw [hf] at he
      simp at he
    · intro hf _
      rw [hf] at he
      simp at he
  · by_cases hd : s.dietary_restrictions = []
    · have hr : route_after_generation s = "IngredientSubstitutionNode" := by
        simp only [route_after_generation, hopt]
        rw [if_neg he, if_neg (by simp [hd])]
      rw [hr]
      exact ⟨fun ht => absurd ht he, fun _ hd2 => absurd hd hd2,
        fun _ _ => rfl, rfl, by decide⟩
    · have hr : route_after_generation s = "DietAdjustmentNode" := by
        simp only [route_after_generation, hopt]
        rw [if_neg he, if_pos hd]
      rw [hr]
      exact ⟨fun ht => absurd ht he, fun _ _ => rfl,
        fun _ hd2 => absurd hd2 hd, rfl, by decide⟩

theorem route_after_generation_cases_witness :
    route_after_generation stErrorGen = "FeedbackNode" :=
  (route_after_generation_cases stErrorGen "Error generating recipe: boom" rfl).1 rfl

/-- Claim C3: with empty `ingredients`, GenerateRecipe writes the fixed
diagnostic string and performs no call to the completion service (the call
list is empty). -/
theorem empty_ingredients_short_circuit (env : Env) (s : RecipeState)
    (h : s.ingredients = []) :
    recipe_generation_node env s =
      ({ s with generated_recipe := some "No ingredients provided. Cannot generate recipe." },
       ([] : List String)) := by
  simp [recipe_generation_node, h]

theorem empty_ingredients_short_circuit_witness :
    recipe_generation_node envAllBlank initialState =
      ({ initialState with generated_recipe := some "No ingredients provided. Cannot generate recipe." },
       ([] : List String)) :=
  empty_ingredients_short_circuit envAllBlank initialState rfl

/-- Claim C6: whenever AdjustForDiet's completion call fails, the step
writes the original generated recipe text to `adjusted_recipe` (the skip
branch passes it through unchanged, and the caught-failure branch falls
back to it), never an error string. -/
theorem diet_adjustment_failure_fallback (env : Env) (s : RecipeState) (e : String)
    (h : env.llm (adjustPrompt s.dietary_restrictions (optStr s.generated_recipe)) =
      .error e) :
    ((diet_adjustment_node env s).1).adjusted_recipe = some (optStr s.generated_recipe) := by
  simp only [diet_adjustment_node]
  split
  · rfl
  · rw [h]

theorem diet_adjustment_failure_fallback_witness :
    ((diet_adjustment_node envFailing stPlainGen).1).adjusted_recipe =
      some "Pasta. Boil water." :=
  diet_adjustment_failure_fallback envFailing stPlainGen "boom" rfl

/-- Claim C7: SuggestSubstitutions chooses `adjusted_recipe` as its source
when present and non-empty, else `generated_recipe` (the selection agrees
with the spec's wording), and whenever the chosen source is empty or
error-marked the step writes an empty mapping and performs no external
call. -/
theorem substitution_source_and_skip (env : Env) (s : RecipeState) :
    sourceText s = specChosenSource s ∧
    ((sourceText s = "" ∨ hasError (sourceText s) = true) →
      ingredient_substitution_node env s =
        ({ s with substitutions := some [] }, ([] : List String))) := by
  constructor
  · cases hadj : s.adjusted_recipe with
    | none => simp [sourceText, specChosenSource, pyOrStr, optStr, hadj]
    | some a =>
      by_cases ha : a = "" <;>
        simp [sourceText, specChosenSource, pyOrStr, optStr, hadj, ha]
  · intro hskip
    simp only [ingredient_substitution_node]
    rw [if_pos hskip]

theorem substitution_source_and_skip_witness :
    ingredient_substitution_node envAllBlank stErrorGen =
      ({ stErrorGen with substitutions := some [] }, ([] : List String)) :=
  (substitution_source_and_skip envAllBlank stErrorGen).2 (Or.inr (by decide))

/-- Claim C8: the substitutions parser first tries a direct JSON parse of
the stripped response, falls back to the greedy brace span, and writes a
single-`error`-key mapping when both fail; and the exact response
consisting of the one-pair JSON object round-trips to the one-entry
mapping. -/
theorem substitution_parse_policy (content : String) :
    (∀ v, jsonLoads (pyStrip content) = some v → extractSubs content = itemsOrErr v) ∧
    (jsonLoads (pyStrip content) = none →
      ∀ span, braceSpan (pyStrip content).data = some span →
        extractSubs content =
          (match jsonLoads (String.mk span) with
           | some v => itemsOrErr v
           | none => [("error", JValue.jstr "Could not parse JSON from response")])) ∧
    (jsonLoads (pyStrip content) = none → braceSpan (pyStrip content).data = none →
      extractSubs content = [("error", JValue.jstr "No JSON found in response")]) ∧
    extractSubs "\x7b\"ingredient\": \"substitute\"\x7d" =
      [("ingredient", JValue.jstr "substitute")] := by
  refine ⟨?_, ?_, ?_, rfl⟩
  · intro v hv
    simp only [extractSubs]
    rw [hv]
  · intro hnone span hspan
    simp only [extractSubs]
    rw [hnone, hspan]
  · intro hnone hbs
    simp only [extractSubs]
    rw [hnone, hbs]

theorem substitution_parse_policy_witness :
    extractSubs "junk" = [("error", JValue.jstr "No JSON found in response")] :=
  (substitution_parse_policy "junk").2.2.1 rfl rfl

/-- Claim C9: with a valid (non-empty, non-error-marked) chosen recipe, the
storage step appends the recipe text to `favorites` exactly when the
trimmed lowercased save answer is `yes`, and records the trimmed notes in
`user_notes` independently of that choice. -/
theorem storage_save_gating (env : Env) (s : RecipeState)
    (hne : pyOrStr (optStr s.adjusted_recipe) (optStr s.generated_recipe) ≠ "")
    (herr : hasError (pyOrStr (optStr s.adjusted_recipe) (optStr s.generated_recipe)) = false) :
    ((storage_node env s).1).favorites =
      some (if pyLower (pyStrip (env.inputLine saveLabel)) = "yes"
            then s.favorites.getD [] ++
              [pyOrStr (optStr s.adjusted_recipe) (optStr s.generated_recipe)]
            else s.favorites.getD []) ∧
    ((storage_node env s).1).user_notes = some (pyStrip (env.inputLine notesLabel)) := by
  have hgate : ¬(pyOrStr (optStr s.adjusted_recipe) (optStr s.generated_recipe) = "" ∨
      hasError (pyOrStr (optStr s.adjusted_recipe) (optStr s.generated_recipe)) = true) := by
    push_neg
    exact ⟨hne, by simp [herr]⟩
  constructor
  · simp only [storage_node]
    rw [if_neg hgate]
  · simp only [storage_node]
    rw [if_neg hgate]
    by_cases hn : pyStrip (env.inputLine notesLabel) = "" <;> simp [hn]

theorem storage_save_gating_witness :
    ((storage_node envAllYes stPlainGen).1).favorites = some ["Pasta. Boil water."] ∧
    ((storage_node envAllYes stPlainGen).1).user_notes = some "yes" :=
  storage_save_gating envAllYes stPlainGen (by decide) (by decide)

/-- Claim C2, counterexample: in the run where the user enters no
ingredients and answers the save question affirmatively, the collected
`ingredients` list is empty, yet the final `favorites` holds the
diagnostic string — it does not remain empty for every save answer. -/
theorem empty_ingredients_favorites_counterexample :
    parseCommaList (envEmptySaveYes.inputLine ingredientsLabel) = [] ∧
    (runApp envEmptySaveYes).map (fun p => p.1.favorites) =
      some (some ["No ingredients provided. Cannot generate recipe."]) :=
  ⟨rfl, rfl⟩

/-- Claim C2, amended: for every run in which the collected `ingredients`
list is empty, the final record's `generated_recipe` equals the fixed
diagnostic string, and `favorites` remains empty whenever the save answer
is not the explicit affirmative `yes`. -/
theorem empty_ingredients_run_amended (env : Env)
    (hing : parseCommaList (env.inputLine ingredientsLabel) = [])
    (hsave : pyLower (pyStrip (env.inputLine saveLabel)) ≠ "yes") :
    ∃ fin tr, runApp env = some (fin, tr) ∧
      fin.generated_recipe = some "No ingredients provided. Cannot generate recipe." ∧
      fin.favorites = some [] := by
  have hing' : ((user_input_node env initialState).1).ingredients = [] := hing
  have hgen : genStateOf env =
      { (user_input_node env initialState).1 with
        generated_recipe := some "No ingredients provided. Cannot generate recipe." } := by
    unfold genStateOf
    simp [recipe_generation_node, hing']
  have hopt : optStr (genStateOf env).generated_recipe =
      "No ingredients provided. Cannot generate recipe." := by
    rw [hgen]
    rfl
  have hdiagErr : hasError "No ingredients provided. Cannot generate recipe." = false := rfl
  by_cases hd : (genStateOf env).dietary_restrictions = []
  · have hr : route_after_generation (genStateOf env) = "IngredientSubstitutionNode" := by
      simp [route_after_generation, hopt, hdiagErr, hd]
    have hnext : nextStep (genStateOf env) .RecipeGenerationNode =
        some (some .IngredientSubstitutionNode) := by
      show (condMap (route_after_generation (genStateOf env))).map some = _
      rw [hr]
      rfl
    have hrun := runApp_of_next env _ _ _ hnext (runFrom_subst4 env (genStateOf env))
    refine ⟨_, _, hrun, ?_, ?_⟩
    · rw [storage_keeps_generated, feedback_keeps_generated, subst_keeps_generated, hgen]
    · apply storage_empty_favorites _ _ _ hsave
      rw [feedback_keeps_favorites, subst_keeps_favorites, hgen]
      rfl
  · have hr : route_after_generation (genStateOf env) = "DietAdjustmentNode" := by
      simp [route_after_generation, hopt, hdiagErr, hd]
    have hnext : nextStep (genStateOf env) .RecipeGenerationNode =
        some (some .DietAdjustmentNode) := by
      show (condMap (route_after_generation (genStateOf env))).map some = _
      rw [hr]
      rfl
    have hrun := runApp_of_next env _ _ _ hnext (runFrom_diet4 env (genStateOf env))
    refine ⟨_, _, hrun, ?_, ?_⟩
    · rw [storage_keeps_generated, feedback_keeps_generated, subst_keeps_generated,
        diet_keeps_generated, hgen]
    · apply storage_empty_favorites _ _ _ hsave
      rw [feedback_keeps_favorites, subst_keeps_favorites, diet_keeps_favorites, hgen]
      rfl

theorem empty_ingredients_run_amended_witness :
    ∃ fin tr, runApp envAllBlank = some (fin, tr) ∧
      fin.generated_recipe = some "No ingredients provided. Cannot generate recipe." ∧
      fin.favorites = some [] :=
  empty_ingredients_run_amended envAllBlank rfl (by decide)

/-- Claim C4: whenever the GenerateRecipe result carries the error marker,
the router selects FeedbackNode, the diet-adjustment and substitution
steps never execute (the trace goes straight from generation to feedback
and storage), and the final record's `adjusted_recipe` and `substitutions`
remain unset. -/
theorem error_generation_routes_to_feedback (env : Env) (g : String)
    (hg : (genStateOf env).generated_recipe = some g)
    (he : hasError g = true) :
    route_after_generation (genStateOf env) = "FeedbackNode" ∧
    ∃ fin, runApp env = some (fin,
        [.UserInputNode, .RecipeGenerationNode, .FeedbackNode, .StorageNode]) ∧
      fin.adjusted_recipe = none ∧ fin.substitutions = none := by
  have hopt : optStr (genStateOf env).generated_recipe = g := by
    rw [hg]
    rfl
  have hr : route_after_generation (genStateOf env) = "FeedbackNode" := by
    simp only [route_after_generation, hopt]
    rw [if_pos he]
  refine ⟨hr, ?_⟩
  have hnext : nextStep (genStateOf env) .RecipeGenerationNode = some (some .FeedbackNode) := by
    show (condMap (route_after_generation (genStateOf env))).map some = _
    rw [hr]
    rfl
  have hadj0 : (genStateOf env).adjusted_recipe = none := by
    show ((recipe_generation_node env _).1).adjusted_recipe = none
    rw [generation_keeps_adjusted]
    rfl
  have hsub0 : (genStateOf env).substitutions = none := by
    show ((recipe_generation_node env _).1).substitutions = none
    rw [generation_keeps_substitutions]
    rfl
  refine ⟨_, runApp_of_next env _ _ _ hnext (runFrom_feedback4 env (genStateOf env)), ?_, ?_⟩
  · rw [storage_keeps_adjusted, feedback_keeps_adjusted, hadj0]
  · rw [storage_keeps_substitutions, feedback_keeps_substitutions, hsub0]

theorem error_generation_routes_to_feedback_witness :
    route_after_generation (genStateOf envFailing) = "FeedbackNode" ∧
    ∃ fin, runApp envFailing = some (fin,
        [.UserInputNode, .RecipeGenerationNode, .FeedbackNode, .StorageNode]) ∧
      fin.adjusted_recipe = none ∧ fin.substitutions = none :=
  error_generation_routes_to_feedback envFailing "Error generating recipe: boom" rfl rfl

/-- Claim C5: for every environment — including one where every completion
call fails — the executor reaches the terminal marker and produces a final
state record within at most `stepCount` iterations, and the declared graph
is acyclic (every declared edge strictly decreases a rank function). -/
theorem executor_terminates (env : Env) :
    (∃ fin tr, runApp env = some (fin, tr) ∧ tr.length ≤ stepCount) ∧
    (∀ a b : NodeName, b ∈ declaredSuccessors a → nodeRank b < nodeRank a) := by
  constructor
  · obtain ⟨n2, hc⟩ := route_in_table (genStateOf env)
    have hnext : nextStep (genStateOf env) .RecipeGenerationNode = some (some n2) := by
      show (condMap (route_after_generation (genStateOf env))).map some = _
      rw [hc]
      rfl
    rcases condMap_mem _ _ hc with h2 | h2 | h2 <;> subst h2
    · exact ⟨_, _, runApp_of_next env _ _ _ hnext (runFrom_diet4 env (genStateOf env)),
        by decide⟩
    · exact ⟨_, _, runApp_of_next env _ _ _ hnext (runFrom_subst4 env (genStateOf env)),
        by decide⟩
    · exact ⟨_, _, runApp_of_next env _ _ _ hnext (runFrom_feedback4 env (genStateOf env)),
        by decide⟩
  · decide

theorem executor_terminates_witness :
    (∃ fin tr, runApp envFailing = some (fin, tr) ∧ tr.length ≤ stepCount) ∧
    nodeRank .RecipeGenerationNode < nodeRank .UserInputNode :=
  ⟨(executor_terminates envFailing).1,
   (executor_terminates envFailing).2 .UserInputNode .RecipeGenerationNode (by decide)⟩

/-- Claim C10: the fixed empty-ingredients diagnostic does not contain the
error marker, so for every run with empty collected ingredients the router
returns DietAdjustmentNode or IngredientSubstitutionNode (never
FeedbackNode), and downstream steps treat the diagnostic as a valid
recipe: the substitution step performs its external call on it, and the
storage step appends it to `favorites` on an affirmative save answer. -/
theorem diagnostic_treated_as_valid (env : Env) (s : RecipeState)
    (hing : parseCommaList (env.inputLine ingredientsLabel) = [])
    (hadj : s.adjusted_recipe = none)
    (hgen : s.generated_recipe = some "No ingredients provided. Cannot generate recipe.")
    (hfav : s.favorites = some []) :
    hasError "No ingredients provided. Cannot generate recipe." = false ∧
    (route_after_generation (genStateOf env) = "DietAdjustmentNode" ∨
     route_after_generation (genStateOf env) = "IngredientSubstitutionNode") ∧
    (ingredient_substitution_node env s).2 ≠ [] ∧
    (pyLower (pyStrip (env.inputLine saveLabel)) = "yes" →
      ((storage_node env s).1).favorites =
        some ["No ingredients provided. Cannot generate recipe."]) := by
  have hing' : ((user_input_node env initialState).1).ingredients = [] := hing
  have hgenState : genStateOf env =
      { (user_input_node env initialState).1 with
        generated_recipe := some "No ingredients provided. Cannot generate recipe." } := by
    unfold genStateOf
    simp [recipe_generation_node, hing']
  have hopt : optStr (genStateOf env).generated_recipe =
      "No ingredients provided. Cannot generate recipe." := by
    rw [hgenState]
    rfl
  have hdiagErr : hasError "No ingredients provided. Cannot generate recipe." = false := rfl
  have hsrc : sourceText s = "No ingredients provided. Cannot generate recipe." := by
    simp [sourceText, hadj, hgen, pyOrStr, optStr]
  refine ⟨rfl, ?_, ?_, ?_⟩
  · by_cases hd : (genStateOf env).dietary_restrictions = []
    · exact Or.inr (by simp [route_after_generation, hopt, hdiagErr, hd])
    · exact Or.inl (by simp [route_after_generation, hopt, hdiagErr, hd])
  · have hnoskip : ¬(sourceText s = "" ∨ hasError (sourceText s) = true) := by
      rw [hsrc]
      decide
    simp only [ingredient_substitution_node]
    rw [if_neg hnoskip]
    cases env.llm (substPrompt s.dietary_restrictions s.preferences (sourceText s)) <;> simp
  · intro hyes
    have hrec : pyOrStr (optStr s.adjusted_recipe) (optStr s.generated_recipe) =
        "No ingredients provided. Cannot generate recipe." := by
      simp [hadj, hgen, pyOrStr, optStr]
    have hnoskip : ¬(pyOrStr (optStr s.adjusted_recipe) (optStr s.generated_recipe) = "" ∨
        hasError (pyOrStr (optStr s.adjusted_recipe) (optStr s.generated_recipe)) = true) := by
      rw [hrec]
      decide
    simp only [storage_node]
    rw [if_neg hnoskip]
    simp [hyes, hfav, hrec]

theorem diagnostic_treated_as_valid_witness :
    ((storage_node envEmptySaveYes stDiagGen).1).favorites =
      some ["No ingredients provided. Cannot generate recipe."] :=
  (diagnostic_treated_as_valid envEmptySaveYes stDiagGen rfl rfl rfl rfl).2.2.2 rfl

end RecipeApp
